import Mathlib

/-!
Verification of the CarStore CRUD service (src/main.go).

The five Gin handlers (`getAllCars`, `addCar`, `getCarByID`, `updateCar`,
`deleteCar`) are shallowly embedded as pure functions.  The MongoDB
collection is modelled as a list of `Car` documents; each handler takes
the store, a failure flag for its storage call (covering connectivity,
timeout and decode failures of the collaborator), and the already-decoded
inputs (the path parameter as a string, the request body as `Option Car`
where `none` is a body that fails `ShouldBindJSON`).  A handler returns
the HTTP response it writes, the store after the call, and the number of
storage calls it performed.
-/

namespace CarStore

/-- A MongoDB ObjectID, modelled by its 96-bit numeric value.
`primitive.NilObjectID` (all-zero bytes) is `0`. -/
abbrev ObjectID := Nat

/-- The `Car` struct of src/main.go: `ID` (bson `_id,omitempty`), `Make`,
`Model`, `Year int`, `Price float64`.  The handlers never perform
arithmetic on `Price`; it is only decoded, stored and echoed, so any
type with decidable equality models the carried value; we use `Rat`. -/
structure Car where
  id    : ObjectID
  make  : String
  model : String
  year  : Int
  price : Rat
deriving DecidableEq

/-- The body a handler serializes: nothing (`c.Status`), the JSON
literal `null` (what `encoding/json` produces for a nil `[]Car` slice),
a JSON array of cars, a single car, or a `gin.H\x7b"error": msg\x7d`
object. -/
inductive Body where
  | empty : Body
  | null  : Body
  | json  (cars : List Car) : Body
  | car   (c : Car) : Body
  | error (msg : String) : Body
deriving DecidableEq

/-- An HTTP response: status code and body. -/
structure Response where
  status : Nat
  body   : Body
deriving DecidableEq

/-- Outcome of running a handler: the single response it writes, the
store contents after the call and how many storage calls it made. -/
structure HandlerResult where
  response : Response
  store    : List Car
  calls    : Nat
deriving DecidableEq

/-- Value of a hex digit, as accepted by Go `encoding/hex`
(`0-9`, `a-f`, `A-F`). -/
def hexDigitVal (c : Char) : Option Nat :=
  if '0' ≤ c ∧ c ≤ '9' then some (c.toNat - '0'.toNat)
  else if 'a' ≤ c ∧ c ≤ 'f' then some (c.toNat - 'a'.toNat + 10)
  else if 'A' ≤ c ∧ c ≤ 'F' then some (c.toNat - 'A'.toNat + 10)
  else none

/-- Numeric value of a hex string (`hex.DecodeString` followed by
reading the bytes big-endian); `none` if any character is not hex. -/
def hexValue : List Char → Option Nat
  | [] => some 0
  | c :: cs => do
      let d ← hexDigitVal c
      let rest ← hexValue cs
      pure (d * 16 ^ cs.length + rest)

/-- `primitive.ObjectIDFromHex`: succeeds exactly on 24-character hex
strings (length check, then `hex.DecodeString` into 12 bytes). -/
def objectIDFromHex (s : String) : Option ObjectID :=
  if s.length = 24 then hexValue s.data else none

/-- `FindOne(ctx, bson.M\x7b"_id": id\x7d)`: the first stored document
whose `_id` matches; `none` is `mongo.ErrNoDocuments`. -/
def findOne (store : List Car) (id : ObjectID) : Option Car :=
  store.find? (fun d => d.id = id)

/-- `$set` of the update document built in `updateCar`: replaces
`make`, `model`, `year`, `price`; `_id` is not in the `$set`. -/
def setFields (d p : Car) : Car :=
  { d with make := p.make, model := p.model, year := p.year, price := p.price }

/-- `UpdateOne` with filter `\x7b"_id": id\x7d`: updates at most one
(the first matching) document. -/
def updateFirst : List Car → ObjectID → Car → List Car
  | [], _, _ => []
  | d :: ds, id, p =>
      if d.id = id then setFields d p :: ds else d :: updateFirst ds id p

/-- `DeleteOne` with filter `\x7b"_id": id\x7d`: removes at most one
(the first matching) document. -/
def deleteFirst : List Car → ObjectID → List Car
  | [], _ => []
  | d :: ds, id => if d.id = id then ds else d :: deleteFirst ds id

/-- Modelled from the spec: the storage collaborator's insert-one
operation "returns assigned id" (§6, generated on creation §3).  The Go
driver reports `InsertedID` as a dynamically typed value; for a document
marshalled with `_id,omitempty` it is the identifier under which the
document was stored: the document's own `_id` when non-zero, otherwise
the one the driver generated (`gen`). -/
inductive BsonValue where
  | objectId (oid : ObjectID) : BsonValue
  | other : BsonValue
deriving DecidableEq

/-- The identifier under which `InsertOne` stores `car`:  `car.id` if it
is non-zero (so not omitted by `omitempty`), else the driver-generated
`gen`. -/
def assignedId (car : Car) (gen : ObjectID) : ObjectID :=
  if car.id = 0 then gen else car.id

/-- Modelled from the spec: `result.InsertedID` of a successful
insert-one is the assigned identifier (§6), as a BSON value. -/
def insertedID (car : Car) (gen : ObjectID) : BsonValue :=
  .objectId (assignedId car gen)

/-- The Go type assertion `v.(primitive.ObjectID)`: `none` models the
panic on a non-ObjectID value. -/
def assertObjectID : BsonValue → Option ObjectID
  | .objectId oid => some oid
  | .other => none

/-- The `var cars []Car` slice after a successful `cursor.All`: Go's
nil slice (`none`) when the collection holds no document, because
`cursor.All` only appends to the initially nil slice; otherwise the
non-nil slice of all stored records. -/
def carsSlice (store : List Car) : Option (List Car) :=
  if store.isEmpty then none else some store

/-- `c.JSON` applied to a `[]Car` value: `encoding/json` marshals the
nil slice as the JSON literal `null`, a non-nil slice as the array. -/
def jsonOfCars : Option (List Car) → Body
  | none => .null
  | some cars => .json cars

/-- `getAllCars`: `Find` with an empty filter, then `cursor.All` into
`var cars []Car`.  `failFind` (resp. `failAll`) injects a failure of
the query (resp. the cursor decode); on success the response is 200
with the serialized `cars` slice. -/
def getAllCars (store : List Car) (failFind failAll : Bool) : HandlerResult :=
  if failFind then
    ⟨⟨500, .error "Failed to fetch cars"⟩, store, 1⟩
  else if failAll then
    ⟨⟨500, .error "Failed to load cars"⟩, store, 1⟩
  else
    ⟨⟨200, jsonOfCars (carsSlice store)⟩, store, 1⟩

/-- `addCar`: decode the body (`400` on failure, before any storage
call), `InsertOne` (`500` on failure), then `car.ID =
result.InsertedID.(primitive.ObjectID)` and 201 with the car.  The
result is `none` when that type assertion panics. -/
def addCar (store : List Car) (fail : Bool) (gen : ObjectID)
    (body : Option Car) : Option HandlerResult :=
  match body with
  | none => some ⟨⟨400, .error "Invalid car data"⟩, store, 0⟩
  | some car =>
      if fail then some ⟨⟨500, .error "Failed to add car"⟩, store, 1⟩
      else
        match assertObjectID (insertedID car gen) with
        | none => none
        | some oid =>
            some ⟨⟨201, .car { car with id := oid }⟩,
                  store ++ [{ car with id := oid }], 1⟩

/-- `getCarByID`: parse the path id (`400` on failure, before any
storage call), then `FindOne(...).Decode(&car)`; ANY error of that call
- `ErrNoDocuments` as well as an injected failure - is answered with
404 "Car not found"; success is 200 with the car. -/
def getCarByID (store : List Car) (fail : Bool) (idParam : String) :
    HandlerResult :=
  match objectIDFromHex idParam with
  | none => ⟨⟨400, .error "Invalid car ID"⟩, store, 0⟩
  | some id =>
      if fail then ⟨⟨404, .error "Car not found"⟩, store, 1⟩
      else
        match findOne store id with
        | none => ⟨⟨404, .error "Car not found"⟩, store, 1⟩
        | some car => ⟨⟨200, .car car⟩, store, 1⟩

/-- `updateCar`: parse the path id (`400`), decode the body (`400`),
`UpdateOne` with the `$set` document (`500` on failure), 404 if
`MatchedCount == 0`, else `car.ID = id` and 200 with the car. -/
def updateCar (store : List Car) (fail : Bool) (idParam : String)
    (body : Option Car) : HandlerResult :=
  match objectIDFromHex idParam with
  | none => ⟨⟨400, .error "Invalid car ID"⟩, store, 0⟩
  | some id =>
      match body with
      | none => ⟨⟨400, .error "Invalid car data"⟩, store, 0⟩
      | some car =>
          if fail then ⟨⟨500, .error "Failed to update car"⟩, store, 1⟩
          else if (findOne store id).isSome then
            ⟨⟨200, .car { car with id := id }⟩, updateFirst store id car, 1⟩
          else
            ⟨⟨404, .error "Car not found"⟩, store, 1⟩

/-- `deleteCar`: parse the path id (`400`), `DeleteOne` (`500` on
failure), 404 if `DeletedCount == 0`, else `c.Status(204)` with no
body. -/
def deleteCar (store : List Car) (fail : Bool) (idParam : String) :
    HandlerResult :=
  match objectIDFromHex idParam with
  | none => ⟨⟨400, .error "Invalid car ID"⟩, store, 0⟩
  | some id =>
      if fail then ⟨⟨500, .error "Failed to delete car"⟩, store, 1⟩
      else if (findOne store id).isSome then
        ⟨⟨204, .empty⟩, deleteFirst store id, 1⟩
      else
        ⟨⟨404, .error "Car not found"⟩, store, 1⟩

end CarStore

namespace CarStore

/-! ### Helper lemmas about the store operations -/

theorem setFields_id (d p : Car) : (setFields d p).id = d.id := rfl

theorem findOne_eq_none_iff (store : List Car) (id : ObjectID) :
    findOne store id = none ↔ ∀ d ∈ store, d.id ≠ id := by
  simp [findOne, List.find?_eq_none]

theorem findOne_append_fresh (store : List Car) (c : Car) (id : ObjectID)
    (hfresh : ∀ d ∈ store, d.id ≠ id) (hc : c.id = id) :
    findOne (store ++ [c]) id = some c := by
  induction store with
  | nil => simp [findOne, List.find?, hc]
  | cons d ds ih =>
      have hd : d.id ≠ id := hfresh d (by simp)
      have := ih (fun x hx => hfresh x (by simp [hx]))
      simpa [findOne, List.find?_cons, hd] using this

theorem updateFirst_map_id (store : List Car) (id : ObjectID) (p : Car) :
    (updateFirst store id p).map Car.id = store.map Car.id := by
  induction store with
  | nil => rfl
  | cons d ds ih =>
      by_cases h : d.id = id <;> simp [updateFirst, h, setFields, ih]

theorem map_setIf_of_not_mem (ds : List Car) (id : ObjectID) (p : Car)
    (h : ∀ x ∈ ds, x.id ≠ id) :
    ds.map (fun d => if d.id = id then setFields d p else d) = ds := by
  induction ds with
  | nil => rfl
  | cons d rest ih =>
      have hd : d.id ≠ id := h d (by simp)
      have := ih (fun x hx => h x (by simp [hx]))
      simp [hd, this]

theorem updateFirst_eq_map (store : List Car) (id : ObjectID) (p : Car)
    (huniq : (store.map Car.id).Nodup) :
    updateFirst store id p =
      store.map (fun d => if d.id = id then setFields d p else d) := by
  induction store with
  | nil => rfl
  | cons d ds ih =>
      simp only [List.map_cons, List.nodup_cons] at huniq
      by_cases h : d.id = id
      · have hds : ∀ x ∈ ds, x.id ≠ id := by
          intro x hx hxid
          exact huniq.1 (by rw [h, ← hxid]; exact List.mem_map_of_mem Car.id hx)
        simp [updateFirst, h, map_setIf_of_not_mem ds id p hds]
      · simp [updateFirst, h, ih huniq.2]

end CarStore

namespace CarStore

/-! ### Claims -/

/-- Claim C1 is FALSE on the code: at this concrete input the store
holds a record matching the well-formed identifier and the storage call
fails for an infrastructure reason (not "no match"), yet `getCarByID`
answers 404 - so a storage error that is not "no match" IS reported as
404, and not as 500 as the claim requires. -/
theorem C1_counterexample :
    findOne [⟨1, "Toyota", "Corolla", 2020, 19999⟩] 1 =
      some ⟨1, "Toyota", "Corolla", 2020, 19999⟩ ∧
    (getCarByID [⟨1, "Toyota", "Corolla", 2020, 19999⟩] true
        "000000000000000000000001").response.status = 404 ∧
    (getCarByID [⟨1, "Toyota", "Corolla", 2020, 19999⟩] true
        "000000000000000000000001").response.status ≠ 500 := by
  decide

/-- Claim C1 (amended): for a well-formed identifier, `getCarByID`
answers 404 for EVERY error of the storage call - "no match" and
infrastructure failures alike - it never returns 500, and it returns
200 exactly when the call succeeds and a record matches. -/
theorem C1_amended (store : List Car) (fail : Bool) (s : String)
    (id : ObjectID) (h : objectIDFromHex s = some id) :
    ((getCarByID store fail s).response.status = 404 ↔
      (fail = true ∨ findOne store id = none)) ∧
    (getCarByID store fail s).response.status ≠ 500 ∧
    ((getCarByID store fail s).response.status = 200 ↔
      (fail = false ∧ (findOne store id).isSome = true)) := by
  unfold getCarByID
  rw [h]
  cases fail
  · cases hf : findOne store id <;> simp [hf]
  · simp

/-- Witness for the amended C1 at a concrete empty store. -/
theorem C1_amended_witness :
    ((getCarByID [] false "000000000000000000000002").response.status = 404 ↔
      (false = true ∨ findOne [] 2 = none)) ∧
    (getCarByID [] false "000000000000000000000002").response.status ≠ 500 ∧
    ((getCarByID [] false "000000000000000000000002").response.status = 200 ↔
      (false = false ∧ (findOne [] 2).isSome = true)) :=
  C1_amended [] false "000000000000000000000002" 2 (by decide)

/-- Claim C2 is FALSE on the code for the empty store: a successful
list over zero records leaves `var cars []Car` a nil slice, which is
serialized as the JSON literal `null`, not as the empty array the
claim requires. -/
theorem C2_counterexample :
    (getAllCars [] false false).response.status = 200 ∧
    (getAllCars [] false false).response.body = .null ∧
    (getAllCars [] false false).response.body ≠ .json [] := by
  decide

/-- Claim C2 (amended): when the storage query and the cursor decode
succeed, `getAllCars` answers 200; for a store holding at least one
record the body is the JSON array of all stored records, but for an
empty store the body is the JSON literal `null` (the serialized nil
slice), not an empty array. -/
theorem C2_list_amended (c : Car) (cs : List Car) :
    getAllCars (c :: cs) false false =
      ⟨⟨200, .json (c :: cs)⟩, c :: cs, 1⟩ ∧
    getAllCars [] false false = ⟨⟨200, .null⟩, [], 1⟩ :=
  ⟨rfl, rfl⟩

/-- Claim C3: a successful `create(P)` stores `P` under the assigned
identifier and a subsequent `get` of that identifier (fresh for the
store) returns a record equal to `P` in make, model, year and price,
differing only in the `id` field. -/
theorem C3_create_then_get (store : List Car) (gen : ObjectID) (P : Car)
    (s : String)
    (hfresh : ∀ d ∈ store, d.id ≠ assignedId P gen)
    (hs : objectIDFromHex s = some (assignedId P gen)) :
    addCar store false gen (some P) =
      some ⟨⟨201, .car ⟨assignedId P gen, P.make, P.model, P.year, P.price⟩⟩,
            store ++ [⟨assignedId P gen, P.make, P.model, P.year, P.price⟩], 1⟩ ∧
    (getCarByID
        (store ++ [⟨assignedId P gen, P.make, P.model, P.year, P.price⟩])
        false s).response =
      ⟨200, .car ⟨assignedId P gen, P.make, P.model, P.year, P.price⟩⟩ := by
  constructor
  · rfl
  · have hfind := findOne_append_fresh store
      ⟨assignedId P gen, P.make, P.model, P.year, P.price⟩
      (assignedId P gen) hfresh rfl
    unfold getCarByID
    rw [hs]
    simp [hfind]

/-- Witness for C3: create a concrete car in an empty store, then get it
back by the assigned identifier. -/
theorem C3_create_then_get_witness :
    addCar [] false 1 (some ⟨0, "Toyota", "Corolla", 2020, 19999⟩) =
      some ⟨⟨201, .car ⟨1, "Toyota", "Corolla", 2020, 19999⟩⟩,
            [⟨1, "Toyota", "Corolla", 2020, 19999⟩], 1⟩ ∧
    (getCarByID [⟨1, "Toyota", "Corolla", 2020, 19999⟩] false
        "000000000000000000000001").response =
      ⟨200, .car ⟨1, "Toyota", "Corolla", 2020, 19999⟩⟩ :=
  C3_create_then_get [] 1 ⟨0, "Toyota", "Corolla", 2020, 19999⟩
    "000000000000000000000001" (by simp) (by decide)

/-- Claim C4: a malformed identifier (for get, update, delete) and an
undecodable body (for create, update) are answered 400 with zero
storage calls and the store unchanged. -/
theorem C4_short_circuit (store : List Car) (fail : Bool) (gen : ObjectID)
    (b : Option Car) (s t : String)
    (hs : objectIDFromHex s = none) :
    getCarByID store fail s = ⟨⟨400, .error "Invalid car ID"⟩, store, 0⟩ ∧
    updateCar store fail s b = ⟨⟨400, .error "Invalid car ID"⟩, store, 0⟩ ∧
    deleteCar store fail s = ⟨⟨400, .error "Invalid car ID"⟩, store, 0⟩ ∧
    addCar store fail gen none =
      some ⟨⟨400, .error "Invalid car data"⟩, store, 0⟩ ∧
    (updateCar store fail t none).response.status = 400 ∧
    (updateCar store fail t none).store = store ∧
    (updateCar store fail t none).calls = 0 := by
  have h1 : getCarByID store fail s =
      ⟨⟨400, .error "Invalid car ID"⟩, store, 0⟩ := by
    unfold getCarByID; rw [hs]
  have h2 : updateCar store fail s b =
      ⟨⟨400, .error "Invalid car ID"⟩, store, 0⟩ := by
    unfold updateCar; rw [hs]
  have h3 : deleteCar store fail s =
      ⟨⟨400, .error "Invalid car ID"⟩, store, 0⟩ := by
    unfold deleteCar; rw [hs]
  have h5 : (updateCar store fail t none).response.status = 400 ∧
      (updateCar store fail t none).store = store ∧
      (updateCar store fail t none).calls = 0 := by
    unfold updateCar
    cases ht : objectIDFromHex t <;> exact ⟨rfl, rfl, rfl⟩
  exact ⟨h1, h2, h3, rfl, h5.1, h5.2.1, h5.2.2⟩

/-- Witness for C4 with the spec's own malformed identifier
"not-a-valid-id" and a well-formed one for the undecodable-body case. -/
theorem C4_short_circuit_witness :
    getCarByID [] false "not-a-valid-id" =
      ⟨⟨400, .error "Invalid car ID"⟩, [], 0⟩ ∧
    updateCar [] false "not-a-valid-id" none =
      ⟨⟨400, .error "Invalid car ID"⟩, [], 0⟩ ∧
    deleteCar [] false "not-a-valid-id" =
      ⟨⟨400, .error "Invalid car ID"⟩, [], 0⟩ ∧
    addCar [] false 1 none = some ⟨⟨400, .error "Invalid car data"⟩, [], 0⟩ ∧
    (updateCar [] false "000000000000000000000003" none).response.status = 400 ∧
    (updateCar [] false "000000000000000000000003" none).store = [] ∧
    (updateCar [] false "000000000000000000000003" none).calls = 0 :=
  C4_short_circuit [] false 1 none "not-a-valid-id"
    "000000000000000000000003" (by decide)

end CarStore

namespace CarStore

/-- Claim C5: a well-formed update with a decodable body writes exactly
the payload's make, model, year and price over the matched record
(zero values included), keeps its id, and touches no other record. -/
theorem C5_full_overwrite (store : List Car) (s : String) (id : ObjectID)
    (p : Car) (hs : objectIDFromHex s = some id)
    (huniq : (store.map Car.id).Nodup) :
    (updateCar store false s (some p)).store =
      store.map (fun d =>
        if d.id = id then ⟨d.id, p.make, p.model, p.year, p.price⟩ else d) := by
  unfold updateCar
  rw [hs]
  by_cases hf : (findOne store id).isSome = true
  · simp only [hf, Bool.false_eq_true, if_false, if_true]
    exact updateFirst_eq_map store id p huniq
  · simp only [hf, Bool.false_eq_true, if_false]
    have hnone : findOne store id = none := by
      cases h : findOne store id
      · rfl
      · rw [h] at hf; simp at hf
    exact (map_setIf_of_not_mem store id p
      ((findOne_eq_none_iff store id).mp hnone)).symm

/-- Witness for C5 on a two-record store, updating record 1 with a
payload whose id field is zero. -/
theorem C5_full_overwrite_witness :
    (updateCar [⟨1, "a", "b", 2000, 1⟩, ⟨2, "c", "d", 2001, 2⟩] false
        "000000000000000000000001"
        (some ⟨0, "x", "y", 2021, 3⟩)).store =
      [⟨1, "a", "b", 2000, 1⟩, ⟨2, "c", "d", 2001, 2⟩].map (fun d =>
        if d.id = 1 then ⟨d.id, "x", "y", 2021, 3⟩ else d) :=
  C5_full_overwrite [⟨1, "a", "b", 2000, 1⟩, ⟨2, "c", "d", 2001, 2⟩]
    "000000000000000000000001" 1 ⟨0, "x", "y", 2021, 3⟩
    (by decide) (by decide)

/-- Claim C6: for a well-formed id and decodable body, `updateCar`
answers 500 when the storage call fails (store untouched), 404 when it
matches no record, and otherwise 200 with a car carrying the path id
and the payload's other fields. -/
theorem C6_update_statuses (store : List Car) (s : String) (id : ObjectID)
    (p : Car) (hs : objectIDFromHex s = some id) :
    ((updateCar store true s (some p)).response.status = 500 ∧
      (updateCar store true s (some p)).store = store) ∧
    (findOne store id = none →
      (updateCar store false s (some p)).response.status = 404 ∧
      (updateCar store false s (some p)).store = store) ∧
    ((findOne store id).isSome = true →
      (updateCar store false s (some p)).response =
        ⟨200, .car ⟨id, p.make, p.model, p.year, p.price⟩⟩) := by
  unfold updateCar
  rw [hs]
  refine ⟨⟨rfl, rfl⟩, ?_, ?_⟩
  · intro h
    simp [h]
  · intro h
    simp [h]

/-- Witness for C6 on a one-record store. -/
theorem C6_update_statuses_witness :
    ((updateCar [⟨1, "a", "b", 2000, 1⟩] true "000000000000000000000001"
        (some ⟨0, "x", "y", 2021, 3⟩)).response.status = 500 ∧
      (updateCar [⟨1, "a", "b", 2000, 1⟩] true "000000000000000000000001"
        (some ⟨0, "x", "y", 2021, 3⟩)).store = [⟨1, "a", "b", 2000, 1⟩]) ∧
    (findOne [⟨1, "a", "b", 2000, 1⟩] 1 = none →
      (updateCar [⟨1, "a", "b", 2000, 1⟩] false "000000000000000000000001"
        (some ⟨0, "x", "y", 2021, 3⟩)).response.status = 404 ∧
      (updateCar [⟨1, "a", "b", 2000, 1⟩] false "000000000000000000000001"
        (some ⟨0, "x", "y", 2021, 3⟩)).store = [⟨1, "a", "b", 2000, 1⟩]) ∧
    ((findOne [⟨1, "a", "b", 2000, 1⟩] 1).isSome = true →
      (updateCar [⟨1, "a", "b", 2000, 1⟩] false "000000000000000000000001"
        (some ⟨0, "x", "y", 2021, 3⟩)).response =
        ⟨200, .car ⟨1, "x", "y", 2021, 3⟩⟩) :=
  C6_update_statuses [⟨1, "a", "b", 2000, 1⟩] "000000000000000000000001" 1
    ⟨0, "x", "y", 2021, 3⟩ (by decide)

/-- Claim C7: `deleteCar` answers 400 on a malformed id, 500 when the
storage call fails, 404 when no record matched, and on success 204 with
an empty body, the matched record removed. -/
theorem C7_delete_statuses (store : List Car) (fail : Bool) (s t : String)
    (id : ObjectID) (hs : objectIDFromHex s = none)
    (ht : objectIDFromHex t = some id) :
    (deleteCar store fail s).response.status = 400 ∧
    (deleteCar store true t).response.status = 500 ∧
    (findOne store id = none →
      (deleteCar store false t).response.status = 404) ∧
    ((findOne store id).isSome = true →
      deleteCar store false t = ⟨⟨204, .empty⟩, deleteFirst store id, 1⟩) := by
  unfold deleteCar
  rw [hs, ht]
  refine ⟨rfl, rfl, ?_, ?_⟩
  · intro h
    simp [h]
  · intro h
    simp [h]

/-- Witness for C7 on a one-record store. -/
theorem C7_delete_statuses_witness :
    (deleteCar [⟨1, "a", "b", 2000, 1⟩] false "nope").response.status = 400 ∧
    (deleteCar [⟨1, "a", "b", 2000, 1⟩] true
        "000000000000000000000001").response.status = 500 ∧
    (findOne [⟨1, "a", "b", 2000, 1⟩] 1 = none →
      (deleteCar [⟨1, "a", "b", 2000, 1⟩] false
        "000000000000000000000001").response.status = 404) ∧
    ((findOne [⟨1, "a", "b", 2000, 1⟩] 1).isSome = true →
      deleteCar [⟨1, "a", "b", 2000, 1⟩] false "000000000000000000000001" =
        ⟨⟨204, .empty⟩, deleteFirst [⟨1, "a", "b", 2000, 1⟩] 1, 1⟩) :=
  C7_delete_statuses [⟨1, "a", "b", 2000, 1⟩] false "nope"
    "000000000000000000000001" 1 (by decide) (by decide)

/-- Claim C8: `addCar` answers 400 with no insert on an undecodable
body, 500 with no insert when the insert fails, and 201 with the car
carrying the storage-assigned id on success. -/
theorem C8_create_statuses (store : List Car) (fail : Bool)
    (gen : ObjectID) (p : Car) :
    addCar store fail gen none =
      some ⟨⟨400, .error "Invalid car data"⟩, store, 0⟩ ∧
    addCar store true gen (some p) =
      some ⟨⟨500, .error "Failed to add car"⟩, store, 1⟩ ∧
    addCar store false gen (some p) =
      some ⟨⟨201, .car ⟨assignedId p gen, p.make, p.model, p.year, p.price⟩⟩,
            store ++ [⟨assignedId p gen, p.make, p.model, p.year, p.price⟩],
            1⟩ :=
  ⟨rfl, rfl, rfl⟩

/-- Claim C9: the update write never changes any record's id - the
store's identifiers, in order, are the same after `updateCar` as
before, for every input. -/
theorem C9_update_preserves_ids (store : List Car) (fail : Bool)
    (s : String) (body : Option Car) :
    ((updateCar store fail s body).store).map Car.id = store.map Car.id := by
  unfold updateCar
  cases hx : objectIDFromHex s with
  | none => rfl
  | some id =>
      cases body with
      | none => rfl
      | some p =>
          cases fail with
          | true => rfl
          | false =>
              by_cases hf : (findOne store id).isSome = true
              · simp [hf, updateFirst_map_id]
              · simp [hf]

/-- Claim C10: the inserted identifier reported by the storage
collaborator is always an ObjectID (the assigned id), so the type
assertion in `addCar` never fails and the handler always produces
exactly one response. -/
theorem C10_insert_assertion_total (store : List Car) (fail : Bool)
    (gen : ObjectID) (body : Option Car) (car : Car) :
    assertObjectID (insertedID car gen) = some (assignedId car gen) ∧
    (addCar store fail gen body).isSome = true := by
  refine ⟨rfl, ?_⟩
  cases body with
  | none => rfl
  | some p =>
      cases fail with
      | true => rfl
      | false => rfl

end CarStore
